import Mathlib

/-!
Verification of the GANDER-B entity simulation engine and protocol
broadcaster (src/python/entity-simulator.py, src/python/tedf-broadcaster.py,
src/python/battlespace-simulator.py) against its natural-language
specification.

The Python floating-point scalars are modelled as rationals.  The calls into
the math library (math.sqrt, math.sin, math.cos, math.atan2, math.pi) are
modelled as an explicit oracle of rational-valued functions passed to the
definitions that use them; theorems that depend on analytic facts about these
functions state them as hypotheses on the oracle.  Python dicts (ordered,
unique keys) are modelled as association lists.
-/

namespace GanderB

/-- Oracle for the math-library calls made by the simulator.
sqrt models math.sqrt; sinDeg and cosDeg model math.sin/math.cos composed
with math.radians (the code always converts degrees to radians first);
atan2Deg models math.degrees of math.atan2; sinRad, cosRad and piQ model
the raw-radian calls used by the orbital pattern generator. -/
structure TrigOracle where
  sqrt : ℚ → ℚ
  sinDeg : ℚ → ℚ
  cosDeg : ℚ → ℚ
  atan2Deg : ℚ → ℚ → ℚ
  sinRad : ℚ → ℚ
  cosRad : ℚ → ℚ
  piQ : ℚ

/-- Python float modulo with positive modulus 360: x % 360 lies in [0, 360). -/
def fmod360 (x : ℚ) : ℚ := x - 360 * ⌊x / 360⌋

/-- PatrolBehavior enum from entity-simulator.py. -/
inductive PatrolBehavior where
  | RANDOM_WAYPOINT
  | ROAD_FOLLOWING
  | AREA_SWEEP
  | PERIMETER_SCOUT
  | TRANSPORT_ROUTE
  | STATIONARY
  | ORBITAL
  deriving DecidableEq, Repr, Inhabited

/-- Position3D dataclass. -/
structure Position3D where
  x : ℚ := 0
  y : ℚ := 0
  z : ℚ := 0
  deriving DecidableEq, Repr, Inhabited

/-- Squared Euclidean distance; Position3D.distance_to is the math.sqrt of
this (applied through the oracle at the call sites). -/
def Position3D.distSq (p q : Position3D) : ℚ :=
  (p.x - q.x) ^ 2 + (p.y - q.y) ^ 2 + (p.z - q.z) ^ 2

/-- Squared planar distance, the square of Position3D.distance_to_2d. -/
def Position3D.distSq2d (p q : Position3D) : ℚ :=
  (p.x - q.x) ^ 2 + (p.z - q.z) ^ 2

/-- Velocity3D dataclass. -/
structure Velocity3D where
  speed : ℚ := 0
  heading : ℚ := 0
  climb_rate : ℚ := 0
  deriving DecidableEq, Repr, Inhabited

/-- TerrainBounds dataclass with its source defaults. -/
structure TerrainBounds where
  min_x : ℚ := -5000
  max_x : ℚ := 5000
  min_z : ℚ := -5000
  max_z : ℚ := 5000
  min_y : ℚ := 0
  max_y : ℚ := 1000
  deriving DecidableEq, Repr, Inhabited

/-- TerrainBounds.is_within_bounds. -/
def TerrainBounds.isWithinBounds (b : TerrainBounds) (p : Position3D)
    (checkAltitude : Bool) : Bool :=
  let withinXZ := decide (b.min_x ≤ p.x ∧ p.x ≤ b.max_x ∧
                          b.min_z ≤ p.z ∧ p.z ≤ b.max_z)
  if !checkAltitude then withinXZ
  else withinXZ && decide (b.min_y ≤ p.y ∧ p.y ≤ b.max_y)

/-- TerrainBounds.get_random_position: the three uniform draws are supplied
as the triple r = (x draw, z draw, y draw); y is used only with altitude. -/
def TerrainBounds.getRandomPosition (_b : TerrainBounds) (r : ℚ × ℚ × ℚ)
    (includeAltitude : Bool) : Position3D :=
  { x := r.1, y := if includeAltitude then r.2.2 else 0, z := r.2.1 }

/-- Waypoint dataclass (arrival_time and speed_override are never read by the
simulator and are omitted). -/
structure Waypoint where
  position : Position3D
  hold_time : ℚ := 0
  deriving DecidableEq, Repr, Inhabited

/-- Typed form of the free-form entity-definition dictionary.  Each field
default is the fallback the source supplies at the corresponding .get call
(cruiseSpeed 5.0, turnRate 30.0, climbRate 5.0, defaultAltitude 500.0,
spawn_probability 0.1, max_concurrent 10, patrol behavior RANDOM_WAYPOINT,
disposition_types singleton UNKNOWN). -/
structure EntityDef where
  id : String
  category : String := "UNKNOWN"
  cruiseSpeed : ℚ := 5
  turnRate : ℚ := 30
  climbRate : ℚ := 5
  defaultAltitude : ℚ := 500
  spawn_probability : ℚ := 1/10
  max_concurrent : ℕ := 10
  patrol_behavior : PatrolBehavior := .RANDOM_WAYPOINT
  disposition_types : List String := ["UNKNOWN"]
  deriving DecidableEq, Repr, Inhabited

/-- SimulatedEntity dataclass (timing and messaging throttle fields are not
relevant to the verified claims and are omitted). -/
structure SimEntity where
  entity_id : String
  edef : EntityDef
  position : Position3D := {}
  velocity : Velocity3D := {}
  target_position : Option Position3D := none
  waypoints : List Waypoint := []
  current_waypoint_index : ℕ := 0
  callsign : String := ""
  disposition : String := "UNKNOWN"
  patrol_behavior : PatrolBehavior := .RANDOM_WAYPOINT
  is_active : Bool := true
  is_moving : Bool := false
  base_speed : ℚ := 0
  speed_multiplier : ℚ := 1
  deriving DecidableEq, Repr, Inhabited

/-- SimulatedEntity.apply_speed_multiplier. -/
def SimEntity.applySpeedMultiplier (e : SimEntity) (m : ℚ) : SimEntity :=
  let base := if e.base_speed = 0 then e.velocity.speed else e.base_speed
  { e with base_speed := base,
           speed_multiplier := m,
           velocity := { e.velocity with speed := base * m } }

/-- EntitySimulator state: the fields read or written by the verified
operations, with their constructor defaults. -/
structure SimState where
  terrain_bounds : TerrainBounds := {}
  entities : List (String × SimEntity) := []
  entity_definitions : List (String × EntityDef) := []
  max_entities : ℕ := 100
  spawn_rate : ℚ := 10
  update_rate : ℚ := 30
  speed_multiplier : ℚ := 1
  last_spawn_time : ℚ := 0
  entities_spawned : ℕ := 0
  entities_despawned : ℕ := 0
  deriving DecidableEq, Repr, Inhabited

/-- EntitySimulator.set_speed_multiplier. -/
def setSpeedMultiplier (s : SimState) (m : ℚ) : SimState :=
  if m ≤ 0 then s
  else { s with speed_multiplier := m,
                entities := s.entities.map
                  (fun p => (p.1, p.2.applySpeedMultiplier m)) }

/-- EntitySimulator.set_update_rate: a non-positive rate is replaced by the
minimum 0.1 before being stored. -/
def simSetUpdateRate (s : SimState) (rate : ℚ) : SimState :=
  let r := if rate ≤ 0 then (1/10 : ℚ) else rate
  { s with update_rate := r }

/-- EntitySimulator.set_spawn_rate: a non-positive rate is replaced by the
minimum 0.1 before being stored. -/
def simSetSpawnRate (s : SimState) (rate : ℚ) : SimState :=
  let r := if rate ≤ 0 then (1/10 : ℚ) else rate
  { s with spawn_rate := r }

/-- EntitySimulator.get_despawned_entities: the body returns the empty list
unconditionally (despawns are handled only by entity removal in
_cleanup_entities). -/
def getDespawnedEntities (_s : SimState) : List String := []

/-- EntitySimulator.force_despawn_entity. -/
def forceDespawnEntity (s : SimState) (entityId : String) : SimState × Bool :=
  if s.entities.any (fun p => p.1 = entityId) then
    let deactivate : String × SimEntity → String × SimEntity := fun p =>
      if p.1 = entityId then (p.1, { p.2 with is_active := false }) else p
    ({ s with entities := s.entities.map deactivate }, true)
  else (s, false)

/-- Count of live entities whose definition id equals defId, as computed in
EntitySimulator._spawn_random_entity. -/
def countByDef (s : SimState) (defId : String) : ℕ :=
  (s.entities.filter (fun p => p.2.edef.id = defId)).length

/-- The desired heading towards the target: math.degrees of math.atan2 of the
planar direction, wrapped into the non-negative range when negative. -/
def desiredHeading (O : TrigOracle) (pos tgt : Position3D) : ℚ :=
  let nh0 := O.atan2Deg (tgt.x - pos.x) (tgt.z - pos.z)
  if nh0 < 0 then nh0 + 360 else nh0

/-- The heading delta applied in one movement step: the raw difference to the
desired heading, wrapped across the plus-minus 180 boundary, then clamped to
turnRate times dt. -/
def clampedHeadingDelta (O : TrigOracle) (dt : ℚ) (e : SimEntity)
    (tgt : Position3D) : ℚ :=
  let maxTurn := e.edef.turnRate * dt
  let d0 := desiredHeading O e.position tgt - e.velocity.heading
  let d1 := if d0 > 180 then d0 - 360 else if d0 < -180 then d0 + 360 else d0
  if |d1| > maxTurn then (if d1 > 0 then maxTurn else -maxTurn) else d1

/-- The heading after one movement step, normalized by the modulo-360 step of
the source. -/
def newHeading (O : TrigOracle) (dt : ℚ) (e : SimEntity) (tgt : Position3D) : ℚ :=
  fmod360 (e.velocity.heading + clampedHeadingDelta O dt e tgt)

/-- EntitySimulator._advance_to_next_waypoint. -/
def advanceToNextWaypoint (e : SimEntity) : SimEntity :=
  match e.waypoints with
  | [] => e
  | w :: ws =>
    let i := (e.current_waypoint_index + 1) % (w :: ws).length
    { e with current_waypoint_index := i,
             target_position := some ((w :: ws).getD i default).position }

/-- EntitySimulator._update_entity_movement.  The arrival test compares the
full 3D distance (Position3D.distance_to) with 50.0. -/
def updateEntityMovement (O : TrigOracle) (dt : ℚ) (e : SimEntity) : SimEntity :=
  match e.target_position with
  | none => e
  | some tgt =>
    if O.sqrt (e.position.distSq tgt) < 50 then advanceToNextWaypoint e
    else
      let dy := tgt.y - e.position.y
      let h1 := newHeading O dt e tgt
      let sp := e.velocity.speed
      let x1 := e.position.x + sp * O.sinDeg h1 * dt
      let z1 := e.position.z + sp * O.cosDeg h1 * dt
      let yc : ℚ × ℚ :=
        if e.edef.category = "AIR" ∧ |dy| > 10 then
          let cRate := e.edef.climbRate
          let cr := if dy > 0 then min cRate (dy / dt) else max (-cRate) (dy / dt)
          (e.position.y + cr * dt, cr)
        else (e.position.y, e.velocity.climb_rate)
      { e with position := { x := x1, y := yc.1, z := z1 },
               velocity := { speed := sp, heading := h1, climb_rate := yc.2 },
               is_moving := decide (sp > 1/10) }

/-- EntitySimulator._update_entity: move the entity, then deactivate it when
its new position is out of bounds (altitude checked only for AIR). -/
def updateEntity (O : TrigOracle) (b : TerrainBounds) (dt : ℚ)
    (e : SimEntity) : SimEntity :=
  if !e.is_active then e
  else
    let e1 := updateEntityMovement O dt e
    if !(b.isWithinBounds e1.position (decide (e1.edef.category = "AIR"))) then
      { e1 with is_active := false }
    else e1

/-- EntitySimulator._update_entities. -/
def updateEntities (O : TrigOracle) (dt : ℚ) (s : SimState) : SimState :=
  let upd : String × SimEntity → String × SimEntity := fun p =>
    (p.1, updateEntity O s.terrain_bounds dt p.2)
  { s with entities := s.entities.map upd }

/-- EntitySimulator._cleanup_entities: delete inactive entities and count
them as despawned. -/
def cleanupEntities (s : SimState) : SimState :=
  let inactive := s.entities.filter (fun p => !p.2.is_active)
  { s with entities := s.entities.filter (fun p => p.2.is_active),
           entities_despawned := s.entities_despawned + inactive.length }

/-- The random draws consumed while constructing and placing one entity:
spawn-position draw, initial heading, disposition pick, callsign, the stream
of waypoint position draws and hold times, and the orbital radius. -/
structure EntityRand where
  posDraw : ℚ × ℚ × ℚ
  heading0 : ℚ
  dispIdx : ℕ
  callsign : String
  wpDraws : ℕ → ℚ × ℚ × ℚ
  wpHolds : ℕ → ℚ
  orbitRadius : ℚ

/-- SimulatedEntity construction (post-init _load_from_definition): callsign,
patrol behavior, random disposition from the allowed list, and the default
altitude for AIR entities. -/
def mkSimEntity (edef : EntityDef) (entityId : String) (r : EntityRand) :
    SimEntity :=
  { entity_id := entityId,
    edef := edef,
    callsign := r.callsign,
    patrol_behavior := edef.patrol_behavior,
    disposition := edef.disposition_types.getD
      (r.dispIdx % edef.disposition_types.length) "UNKNOWN",
    position := { y := if edef.category = "AIR" then edef.defaultAltitude else 0 } }

/-- EntitySimulator._generate_random_waypoints. -/
def generateRandomWaypoints (b : TerrainBounds) (r : EntityRand)
    (e : SimEntity) (count : ℕ) : SimEntity :=
  let air := e.edef.category = "AIR"
  let wps := (List.range count).map (fun i =>
    ({ position := b.getRandomPosition (r.wpDraws i) air,
       hold_time := r.wpHolds i } : Waypoint))
  { e with waypoints := wps,
           current_waypoint_index := 0,
           target_position := wps.head?.map (fun w => w.position) }

/-- EntitySimulator._generate_orbital_pattern: eight vertices of a circle of
random radius around the current position at constant altitude. -/
def generateOrbitalPattern (O : TrigOracle) (r : EntityRand) (e : SimEntity) :
    SimEntity :=
  let center := e.position
  let radius := r.orbitRadius
  let wps := (List.range 8).map (fun i =>
    let angle := 2 * O.piQ * i / 8
    ({ position := { x := center.x + radius * O.cosRad angle,
                     y := center.y,
                     z := center.z + radius * O.sinRad angle },
       hold_time := 0 } : Waypoint))
  { e with waypoints := wps,
           current_waypoint_index := 0,
           target_position := some (wps.getD 0 default).position }

/-- EntitySimulator._generate_transport_route: current position plus one
random destination with a hold at the destination. -/
def generateTransportRoute (b : TerrainBounds) (r : EntityRand)
    (e : SimEntity) : SimEntity :=
  let endPos := b.getRandomPosition (r.wpDraws 0) (e.edef.category = "AIR")
  { e with waypoints := [{ position := e.position, hold_time := 0 },
                         { position := endPos, hold_time := 30 }],
           current_waypoint_index := 0,
           target_position := some endPos }

/-- EntitySimulator._initialize_entity_movement dispatch (AREA_SWEEP and
PERIMETER_SCOUT are the 4- and 6-point random variants; everything else
falls back to 5 random waypoints). -/
def initializeEntityMovement (O : TrigOracle) (b : TerrainBounds)
    (r : EntityRand) (e : SimEntity) : SimEntity :=
  match e.patrol_behavior with
  | .RANDOM_WAYPOINT => generateRandomWaypoints b r e 5
  | .ORBITAL => generateOrbitalPattern O r e
  | .AREA_SWEEP => generateRandomWaypoints b r e 4
  | .PERIMETER_SCOUT => generateRandomWaypoints b r e 6
  | .TRANSPORT_ROUTE => generateTransportRoute b r e
  | _ => generateRandomWaypoints b r e 5

/-- The index selected by random.choices for a scaled variate u: the first
index whose cumulative weight strictly exceeds u (bisect over the running
sums). -/
def weightedIndex : List ℚ → ℚ → ℕ
  | [], _ => 0
  | w :: ws, u => if u < w then 0 else weightedIndex ws (u - w) + 1

/-- Sum of the weights that precede index i. -/
def cumBefore (ws : List ℚ) (i : ℕ) : ℚ := (ws.take i).sum

/-- The definitions currently below their max-concurrent cap, in catalog
order, as collected by _spawn_random_entity. -/
def availableDefs (s : SimState) : List (String × EntityDef) :=
  s.entity_definitions.filter (fun p => countByDef s p.1 < p.2.max_concurrent)

/-- The definition picked by the weighted random choice for the scaled
variate u01 times the total weight; none when no definition is eligible.
random.choices clamps the bisect result to the last valid index. -/
def selectedDef (s : SimState) (u01 : ℚ) : Option (String × EntityDef) :=
  let avail := availableDefs s
  if avail.isEmpty then none
  else
    let ws := avail.map (fun p => p.2.spawn_probability)
    let i := min (weightedIndex ws (u01 * ws.sum)) (avail.length - 1)
    some (avail.getD i default)

/-- The generated unique entity id of _spawn_random_entity, with the
timestamp-plus-random tail supplied as the suffix. -/
def autoEntityId (defId suffix : String) : String :=
  "SIM-" ++ defId ++ "-" ++ suffix

/-- Python dict assignment: replace the value when the key is present
(keeping its place), otherwise append the pair. -/
def dictInsert (l : List (String × SimEntity)) (k : String) (v : SimEntity) :
    List (String × SimEntity) :=
  if l.any (fun p => p.1 = k) then
    l.map (fun p => if p.1 = k then (k, v) else p)
  else l ++ [(k, v)]

/-- The shared tail of both spawn paths: set the initial velocity at cruise
speed with a random heading, record base speed and the global multiplier,
apply the multiplier, initialize the movement pattern, and add the entity to
the population. -/
def finalizeEntity (O : TrigOracle) (r : EntityRand) (s : SimState)
    (e : SimEntity) : SimEntity :=
  let cruise := e.edef.cruiseSpeed
  let e1 := { e with velocity := { speed := cruise, heading := r.heading0,
                                   climb_rate := 0 } }
  let e2 := { e1 with base_speed := cruise, speed_multiplier := s.speed_multiplier }
  let e3 := { e2 with velocity :=
      { e2.velocity with speed := e2.base_speed * e2.speed_multiplier } }
  initializeEntityMovement O s.terrain_bounds r e3

def spawnFinalize (O : TrigOracle) (r : EntityRand) (s : SimState)
    (e : SimEntity) : SimState :=
  let e4 := finalizeEntity O r s e
  { s with entities := dictInsert s.entities e4.entity_id e4,
           entities_spawned := s.entities_spawned + 1 }

/-- EntitySimulator._spawn_random_entity: weighted selection among the
definitions below their cap, then spawn at a random in-bounds position. -/
def spawnRandomEntity (O : TrigOracle) (r : EntityRand) (u01 : ℚ)
    (suffix : String) (s : SimState) : SimState :=
  match selectedDef s u01 with
  | none => s
  | some (defId, d) =>
    let e0 := mkSimEntity d (autoEntityId defId suffix) r
    let e1 := { e0 with position :=
        s.terrain_bounds.getRandomPosition r.posDraw (decide (d.category = "AIR")) }
    spawnFinalize O r s e1

/-- EntitySimulator.spawn_entity_at_position: manual spawn at an explicit
position with an explicit disposition; no cap, population or bounds check is
made and the call reports success. -/
def spawnEntityAtPosition (O : TrigOracle) (r : EntityRand) (s : SimState)
    (entityId : String) (entityType : EntityDef) (pos : ℚ × ℚ × ℚ)
    (dispo : String) : SimState × Bool :=
  let e0 := mkSimEntity entityType entityId r
  let e1 := { e0 with position := { x := pos.1, y := pos.2.1, z := pos.2.2 } }
  let e2 := { e1 with disposition := dispo }
  (spawnFinalize O r s e2, true)

/-- EntitySimulator._maybe_spawn_entities: skip at the population cap,
otherwise spawn when the spawn interval (60 over the spawn rate, floored at
0.1) has elapsed. -/
def maybeSpawnEntities (O : TrigOracle) (r : EntityRand) (u01 : ℚ)
    (suffix : String) (currentTime : ℚ) (s : SimState) : SimState :=
  if s.entities.length ≥ s.max_entities then s
  else
    let safeRate := max (1/10) s.spawn_rate
    let interval := 60 / safeRate
    if currentTime - s.last_spawn_time ≥ interval then
      { spawnRandomEntity O r u01 suffix s with last_spawn_time := currentTime }
    else s

/-- One iteration of the _simulation_loop body: maybe spawn, update all
entities, then remove the inactive ones. -/
def simTick (O : TrigOracle) (r : EntityRand) (u01 : ℚ) (suffix : String)
    (currentTime dt : ℚ) (s : SimState) : SimState :=
  cleanupEntities (updateEntities O dt
    (maybeSpawnEntities O r u01 suffix currentTime s))

/-- MessageType enum of tedf-broadcaster.py. -/
inductive MessageType where
  | FULL
  | COMPACT
  | BATCH
  | DESPAWN
  deriving DecidableEq, Repr, Inhabited

/-- Outcome of one zmq send_string call with NOBLOCK: success, zmq.Again
(send buffer full), or any other exception. -/
inductive SendOutcome where
  | ok
  | wouldBlock
  | sendFailure
  deriving DecidableEq, Repr, Inhabited

/-- TEDFBroadcaster state: the four FIFO queues, the statistics counters and
the activity flags, with their constructor defaults. -/
structure BroadcasterState where
  update_rate : ℚ := 2
  is_broadcasting : Bool := false
  has_socket : Bool := false
  pending_full : List String := []
  pending_compact : List String := []
  pending_batch : List String := []
  pending_despawn : List String := []
  messages_sent : ℕ := 0
  full_messages_sent : ℕ := 0
  compact_messages_sent : ℕ := 0
  batch_messages_sent : ℕ := 0
  despawn_messages_sent : ℕ := 0
  errors : ℕ := 0
  message_counter : ℕ := 0
  deriving DecidableEq, Repr, Inhabited

/-- TEDFBroadcaster.set_update_rate: a non-positive rate is replaced by the
minimum 0.1 before being stored. -/
def bSetUpdateRate (b : BroadcasterState) (rate : ℚ) : BroadcasterState :=
  let r := if rate ≤ 0 then (1/10 : ℚ) else rate
  { b with update_rate := r }

/-- TEDFBroadcaster._send_message: no-op without a socket or when inactive;
on success bump the per-kind and total counters; on zmq.Again only log (the
message is dropped, no counter changes); on any other failure bump the error
counter. -/
def sendMessage (b : BroadcasterState) (mt : MessageType)
    (outcome : SendOutcome) : BroadcasterState :=
  if !b.has_socket || !b.is_broadcasting then b
  else
    match outcome with
    | .ok =>
      let b1 := { b with messages_sent := b.messages_sent + 1 }
      let b2 :=
        match mt with
        | .FULL => { b1 with full_messages_sent := b1.full_messages_sent + 1 }
        | .COMPACT => { b1 with compact_messages_sent := b1.compact_messages_sent + 1 }
        | .BATCH => { b1 with batch_messages_sent := b1.batch_messages_sent + 1 }
        | .DESPAWN => { b1 with despawn_messages_sent := b1.despawn_messages_sent + 1 }
      { b2 with message_counter := b2.message_counter + 1 }
    | .wouldBlock => b
    | .sendFailure => { b with errors := b.errors + 1 }

/-- One while-pop-send loop of _process_message_queues over one queue: every
message is popped and handed to _send_message in FIFO order; the returned
trace records the attempts in order, and the outcome stream is consumed by
the running attempt counter. -/
def drainQueue (mt : MessageType) (msgs : List String) (b : BroadcasterState)
    (outs : ℕ → SendOutcome) (n : ℕ) :
    BroadcasterState × ℕ × List (MessageType × String) :=
  match msgs with
  | [] => (b, n, [])
  | m :: rest =>
    let b1 := sendMessage b mt (outs n)
    let t := drainQueue mt rest b1 outs (n + 1)
    (t.1, t.2.1, (mt, m) :: t.2.2)

/-- TEDFBroadcaster._process_message_queues: drain despawn, then full, then
batch, then compact, each queue emptied before the next is touched.  Returns
the final state and the ordered trace of send attempts. -/
def processMessageQueues (b : BroadcasterState) (outs : ℕ → SendOutcome) :
    BroadcasterState × List (MessageType × String) :=
  let d := drainQueue .DESPAWN b.pending_despawn { b with pending_despawn := [] } outs 0
  let f := drainQueue .FULL d.1.pending_full { d.1 with pending_full := [] } outs d.2.1
  let bt := drainQueue .BATCH f.1.pending_batch { f.1 with pending_batch := [] } outs f.2.1
  let c := drainQueue .COMPACT bt.1.pending_compact { bt.1 with pending_compact := [] } outs bt.2.1
  (c.1, d.2.2 ++ f.2.2 ++ bt.2.2 ++ c.2.2)

/-- TEDFBroadcaster.queue_full_message: no-op when not broadcasting. -/
def queueFullMessage (b : BroadcasterState) (msg : String) : BroadcasterState :=
  if !b.is_broadcasting then b
  else { b with pending_full := b.pending_full ++ [msg] }

/-- TEDFBroadcaster.queue_compact_message: no-op when not broadcasting. -/
def queueCompactMessage (b : BroadcasterState) (msg : String) : BroadcasterState :=
  if !b.is_broadcasting then b
  else { b with pending_compact := b.pending_compact ++ [msg] }

/-- TEDFBroadcaster.queue_batch_message: no-op when not broadcasting. -/
def queueBatchMessage (b : BroadcasterState) (msg : String) : BroadcasterState :=
  if !b.is_broadcasting then b
  else { b with pending_batch := b.pending_batch ++ [msg] }

/-- TEDFBroadcaster.queue_despawn_message: no-op when not broadcasting. -/
def queueDespawnMessage (b : BroadcasterState) (msg : String) : BroadcasterState :=
  if !b.is_broadcasting then b
  else { b with pending_despawn := b.pending_despawn ++ [msg] }

/-- The signed shortest-angle difference between two headings, in
[-180, 180). -/
def angDelta (a b : ℚ) : ℚ := fmod360 (a - b + 180) - 180

/-- The shortest angular distance between two headings. -/
def angDist (a b : ℚ) : ℚ := |angDelta a b|

theorem fmod360_nonneg (x : ℚ) : 0 ≤ fmod360 x := by
  unfold fmod360
  have h := Int.floor_le (x / 360)
  linarith

theorem fmod360_lt (x : ℚ) : fmod360 x < 360 := by
  unfold fmod360
  have h := Int.lt_floor_add_one (x / 360)
  linarith

theorem fmod360_eq_self {x : ℚ} (h0 : 0 ≤ x) (h1 : x < 360) : fmod360 x = x := by
  unfold fmod360
  have hz : ⌊x / 360⌋ = 0 := by
    rw [Int.floor_eq_zero_iff]
    constructor
    · exact div_nonneg h0 (by norm_num)
    · rw [div_lt_one (by norm_num : (0:ℚ) < 360)]; linarith
  rw [hz]
  push_cast
  ring

theorem fmod360_add_int_mul (x : ℚ) (k : ℤ) :
    fmod360 (x + 360 * k) = fmod360 x := by
  unfold fmod360
  have hdiv : (x + 360 * k) / 360 = x / 360 + k := by
    field_simp
    ring
  rw [hdiv, Int.floor_add_int]
  push_cast
  ring

theorem abs_fmod_center_le (d : ℚ) : |fmod360 (d + 180) - 180| ≤ |d| := by
  rcases le_or_lt |d| 180 with h | h
  · have hd1 : -180 ≤ d := neg_le_of_abs_le h
    have hd2 : d ≤ 180 := le_of_abs_le h
    rcases lt_or_eq_of_le hd2 with hlt | heq
    · rw [fmod360_eq_self (by linarith) (by linarith)]
      simp
    · subst heq
      have h360 : (180 : ℚ) + 180 = 0 + 360 * ((1 : ℤ) : ℚ) := by push_cast; ring
      rw [h360, fmod360_add_int_mul, fmod360_eq_self le_rfl (by norm_num)]
      norm_num
  · have h0 := fmod360_nonneg (d + 180)
    have h1 := fmod360_lt (d + 180)
    have habs : |fmod360 (d + 180) - 180| ≤ 180 :=
      abs_le.mpr ⟨by linarith, by linarith⟩
    linarith

theorem angDist_fmod_add (b d : ℚ) : angDist (fmod360 (b + d)) b ≤ |d| := by
  have key : angDelta (fmod360 (b + d)) b = fmod360 (d + 180) - 180 := by
    have harg : fmod360 (b + d) - b + 180
        = (d + 180) + 360 * ((-⌊(b + d) / 360⌋ : ℤ) : ℚ) := by
      unfold fmod360
      push_cast
      ring
    unfold angDelta
    rw [harg, fmod360_add_int_mul]
  rw [angDist, key]
  exact abs_fmod_center_le d

theorem clampedHeadingDelta_abs_le (O : TrigOracle) (dt : ℚ) (e : SimEntity)
    (tgt : Position3D) (h : 0 ≤ e.edef.turnRate * dt) :
    |clampedHeadingDelta O dt e tgt| ≤ e.edef.turnRate * dt := by
  simp only [clampedHeadingDelta]
  split_ifs <;> first
    | exact (abs_of_nonneg h).le
    | exact le_of_eq (by rw [abs_neg, abs_of_nonneg h])
    | exact le_of_not_lt (by assumption)

theorem advanceToNextWaypoint_velocity (e : SimEntity) :
    (advanceToNextWaypoint e).velocity = e.velocity := by
  cases h : e.waypoints <;> simp [advanceToNextWaypoint, h]

theorem advanceToNextWaypoint_position (e : SimEntity) :
    (advanceToNextWaypoint e).position = e.position := by
  cases h : e.waypoints <;> simp [advanceToNextWaypoint, h]

theorem advanceToNextWaypoint_edef (e : SimEntity) :
    (advanceToNextWaypoint e).edef = e.edef := by
  cases h : e.waypoints <;> simp [advanceToNextWaypoint, h]

theorem advanceToNextWaypoint_is_active (e : SimEntity) :
    (advanceToNextWaypoint e).is_active = e.is_active := by
  cases h : e.waypoints <;> simp [advanceToNextWaypoint, h]

theorem advanceToNextWaypoint_entity_id (e : SimEntity) :
    (advanceToNextWaypoint e).entity_id = e.entity_id := by
  cases h : e.waypoints <;> simp [advanceToNextWaypoint, h]

theorem updateEntityMovement_edef (O : TrigOracle) (dt : ℚ) (e : SimEntity) :
    (updateEntityMovement O dt e).edef = e.edef := by
  unfold updateEntityMovement
  cases ht : e.target_position with
  | none => rfl
  | some tgt =>
    simp only
    split_ifs <;> first
      | exact advanceToNextWaypoint_edef e
      | rfl

theorem updateEntityMovement_is_active (O : TrigOracle) (dt : ℚ) (e : SimEntity) :
    (updateEntityMovement O dt e).is_active = e.is_active := by
  unfold updateEntityMovement
  cases ht : e.target_position with
  | none => rfl
  | some tgt =>
    simp only
    split_ifs <;> first
      | exact advanceToNextWaypoint_is_active e
      | rfl

theorem updateEntityMovement_entity_id (O : TrigOracle) (dt : ℚ) (e : SimEntity) :
    (updateEntityMovement O dt e).entity_id = e.entity_id := by
  unfold updateEntityMovement
  cases ht : e.target_position with
  | none => rfl
  | some tgt =>
    simp only
    split_ifs <;> first
      | exact advanceToNextWaypoint_entity_id e
      | rfl

theorem sendMessage_pending_despawn (b : BroadcasterState) (mt : MessageType)
    (o : SendOutcome) :
    (sendMessage b mt o).pending_despawn = b.pending_despawn := by
  by_cases hc : (!b.has_socket || !b.is_broadcasting) = true
  · simp [sendMessage, hc]
  · cases o <;> cases mt <;> simp [sendMessage, hc]

theorem sendMessage_pending_full (b : BroadcasterState) (mt : MessageType)
    (o : SendOutcome) :
    (sendMessage b mt o).pending_full = b.pending_full := by
  by_cases hc : (!b.has_socket || !b.is_broadcasting) = true
  · simp [sendMessage, hc]
  · cases o <;> cases mt <;> simp [sendMessage, hc]

theorem sendMessage_pending_batch (b : BroadcasterState) (mt : MessageType)
    (o : SendOutcome) :
    (sendMessage b mt o).pending_batch = b.pending_batch := by
  by_cases hc : (!b.has_socket || !b.is_broadcasting) = true
  · simp [sendMessage, hc]
  · cases o <;> cases mt <;> simp [sendMessage, hc]

theorem sendMessage_pending_compact (b : BroadcasterState) (mt : MessageType)
    (o : SendOutcome) :
    (sendMessage b mt o).pending_compact = b.pending_compact := by
  by_cases hc : (!b.has_socket || !b.is_broadcasting) = true
  · simp [sendMessage, hc]
  · cases o <;> cases mt <;> simp [sendMessage, hc]

theorem drainQueue_trace (mt : MessageType) (msgs : List String) :
    ∀ (b : BroadcasterState) (outs : ℕ → SendOutcome) (n : ℕ),
      (drainQueue mt msgs b outs n).2.2 = msgs.map (fun m => (mt, m)) := by
  induction msgs with
  | nil => intro b outs n; simp [drainQueue]
  | cons m rest ih => intro b outs n; simp [drainQueue, ih]

theorem drainQueue_pending_despawn (mt : MessageType) (msgs : List String) :
    ∀ (b : BroadcasterState) (outs : ℕ → SendOutcome) (n : ℕ),
      (drainQueue mt msgs b outs n).1.pending_despawn = b.pending_despawn := by
  induction msgs with
  | nil => intro b outs n; simp [drainQueue]
  | cons m rest ih =>
    intro b outs n
    simp [drainQueue, ih, sendMessage_pending_despawn]

theorem drainQueue_pending_full (mt : MessageType) (msgs : List String) :
    ∀ (b : BroadcasterState) (outs : ℕ → SendOutcome) (n : ℕ),
      (drainQueue mt msgs b outs n).1.pending_full = b.pending_full := by
  induction msgs with
  | nil => intro b outs n; simp [drainQueue]
  | cons m rest ih =>
    intro b outs n
    simp [drainQueue, ih, sendMessage_pending_full]

theorem drainQueue_pending_batch (mt : MessageType) (msgs : List String) :
    ∀ (b : BroadcasterState) (outs : ℕ → SendOutcome) (n : ℕ),
      (drainQueue mt msgs b outs n).1.pending_batch = b.pending_batch := by
  induction msgs with
  | nil => intro b outs n; simp [drainQueue]
  | cons m rest ih =>
    intro b outs n
    simp [drainQueue, ih, sendMessage_pending_batch]

theorem drainQueue_pending_compact (mt : MessageType) (msgs : List String) :
    ∀ (b : BroadcasterState) (outs : ℕ → SendOutcome) (n : ℕ),
      (drainQueue mt msgs b outs n).1.pending_compact = b.pending_compact := by
  induction msgs with
  | nil => intro b outs n; simp [drainQueue]
  | cons m rest ih =>
    intro b outs n
    simp [drainQueue, ih, sendMessage_pending_compact]

/-- Claim C7 (code_bug): every entity deactivated and removed from the live
set should be listed as despawned for exactly one broadcast cycle, but
EntitySimulator.get_despawned_entities returns the empty list for every
simulator state, so the orchestration loop never queues a despawn message
for any removed entity. -/
theorem despawned_entities_always_empty (s : SimState) :
    getDespawnedEntities s = [] := rfl

/-- Claim C8 counterexample: set_update_rate with the non-positive rate -1
on a freshly constructed simulator does not retain the previous value 30; it
stores the clamped minimum 0.1 instead, and likewise for set_spawn_rate
(previous value 10) and the broadcaster set_update_rate (previous value 2). -/
theorem rate_validation_counterexample :
    (simSetUpdateRate ({} : SimState) (-1)).update_rate
        ≠ ({} : SimState).update_rate
    ∧ (simSetSpawnRate ({} : SimState) (-1)).spawn_rate
        ≠ ({} : SimState).spawn_rate
    ∧ (bSetUpdateRate ({} : BroadcasterState) (-1)).update_rate
        ≠ ({} : BroadcasterState).update_rate := by
  refine ⟨?_, ?_, ?_⟩ <;>
    norm_num [simSetUpdateRate, simSetSpawnRate, bSetUpdateRate]

/-- Claim C8 (amended): for every non-positive rate r, the simulator
set_update_rate and set_spawn_rate and the broadcaster set_update_rate
reject r locally as a validation error and store the clamped minimum 0.1 in
place of the previous value, changing no other state and propagating no
exception. -/
theorem rate_validation_clamps_to_minimum (s : SimState) (b : BroadcasterState)
    (r : ℚ) (h : r ≤ 0) :
    simSetUpdateRate s r = { s with update_rate := 1/10 }
    ∧ simSetSpawnRate s r = { s with spawn_rate := 1/10 }
    ∧ bSetUpdateRate b r = { b with update_rate := 1/10 } := by
  refine ⟨?_, ?_, ?_⟩ <;>
    simp [simSetUpdateRate, simSetSpawnRate, bSetUpdateRate, if_pos h]

/-- Claim C8 witness: the amended theorem applied at rate -1 on the default
states. -/
theorem rate_validation_clamps_witness :
    simSetUpdateRate ({} : SimState) (-1)
        = { ({} : SimState) with update_rate := 1/10 }
    ∧ simSetSpawnRate ({} : SimState) (-1)
        = { ({} : SimState) with spawn_rate := 1/10 }
    ∧ bSetUpdateRate ({} : BroadcasterState) (-1)
        = { ({} : BroadcasterState) with update_rate := 1/10 } :=
  rate_validation_clamps_to_minimum {} {} (-1) (by norm_num)

/-- Claim C5: one publish cycle attempts the queued despawn messages first,
then the full messages, then the batch messages, then the compact messages,
each queue drained to empty in FIFO order before the next queue is touched;
all four queues are empty afterwards.  In particular one queued full message
is sent before one queued batch message, which is sent before one queued
compact message. -/
theorem publish_cycle_priority_order (b : BroadcasterState)
    (outs : ℕ → SendOutcome) :
    (processMessageQueues b outs).2
      = b.pending_despawn.map (fun m => (MessageType.DESPAWN, m))
        ++ b.pending_full.map (fun m => (MessageType.FULL, m))
        ++ b.pending_batch.map (fun m => (MessageType.BATCH, m))
        ++ b.pending_compact.map (fun m => (MessageType.COMPACT, m))
    ∧ (processMessageQueues b outs).1.pending_despawn = []
    ∧ (processMessageQueues b outs).1.pending_full = []
    ∧ (processMessageQueues b outs).1.pending_batch = []
    ∧ (processMessageQueues b outs).1.pending_compact = [] := by
  refine ⟨?_, ?_, ?_, ?_, ?_⟩ <;>
    simp [processMessageQueues, drainQueue_trace, drainQueue_pending_despawn,
          drainQueue_pending_full, drainQueue_pending_batch,
          drainQueue_pending_compact]

/-- A broadcaster that is actively publishing with a bound socket. -/
def bLive : BroadcasterState := { is_broadcasting := true, has_socket := true }

/-- Claim C9 counterexample: on an active broadcaster with a bound socket, a
send that would block (zmq.Again) drops the message but does NOT increment
the error counter, contradicting the claim that the error counter is
incremented on a full send buffer. -/
theorem backpressure_counterexample :
    (sendMessage bLive .COMPACT .wouldBlock).errors ≠ bLive.errors + 1 := by
  simp [sendMessage, bLive]

/-- Claim C9 (amended): whenever a publish-cycle send would block because the
transport's send buffer is full, the publish loop drops that one message and
leaves the broadcaster state (including the error counter) entirely
unchanged, while the error counter is incremented only for other send
failures; the cycle continues through every queued message and empties all
four queues, never stalling and never raising out of the loop. -/
theorem backpressure_drop_semantics (b : BroadcasterState) (mt : MessageType)
    (outs : ℕ → SendOutcome)
    (hb : b.is_broadcasting = true) (hs : b.has_socket = true) :
    sendMessage b mt .wouldBlock = b
    ∧ (sendMessage b mt .sendFailure).errors = b.errors + 1
    ∧ (processMessageQueues b outs).1.pending_despawn = []
    ∧ (processMessageQueues b outs).1.pending_full = []
    ∧ (processMessageQueues b outs).1.pending_batch = []
    ∧ (processMessageQueues b outs).1.pending_compact = [] := by
  refine ⟨?_, ?_, ?_, ?_, ?_, ?_⟩
  · simp [sendMessage, hb, hs]
  · simp [sendMessage, hb, hs]
  all_goals
    simp [processMessageQueues, drainQueue_pending_despawn,
          drainQueue_pending_full, drainQueue_pending_batch,
          drainQueue_pending_compact]

/-- Claim C9 witness: the amended theorem applied to the live broadcaster
with every send reporting a full buffer. -/
theorem backpressure_drop_semantics_witness :
    sendMessage bLive .COMPACT .wouldBlock = bLive
    ∧ (sendMessage bLive .COMPACT .sendFailure).errors = bLive.errors + 1
    ∧ (processMessageQueues bLive (fun _ => .wouldBlock)).1.pending_despawn = []
    ∧ (processMessageQueues bLive (fun _ => .wouldBlock)).1.pending_full = []
    ∧ (processMessageQueues bLive (fun _ => .wouldBlock)).1.pending_batch = []
    ∧ (processMessageQueues bLive (fun _ => .wouldBlock)).1.pending_compact = [] :=
  backpressure_drop_semantics bLive .COMPACT (fun _ => .wouldBlock) rfl rfl

theorem applySpeedMultiplier_twice (e : SimEntity) (m1 m2 : ℚ) :
    (e.applySpeedMultiplier m1).applySpeedMultiplier m2
      = e.applySpeedMultiplier m2 := by
  simp only [SimEntity.applySpeedMultiplier]
  by_cases hb : e.base_speed = 0 <;> by_cases hs : e.velocity.speed = 0 <;>
    simp [hb, hs]

/-- Claim C3: set_speed_multiplier with m less-or-equal 0 is rejected and
changes nothing; with m positive it stores m and rescales every entity
against its recorded base speed (so an entity whose recorded base speed is
consistent with its speed ends at base_speed times m), and applying m1 then
m2 gives exactly the state of applying m2 directly - no compounding. -/
theorem speed_multiplier_semantics (s : SimState) (m m1 m2 : ℚ) :
    (m ≤ 0 → setSpeedMultiplier s m = s)
    ∧ (0 < m →
        (setSpeedMultiplier s m).speed_multiplier = m
        ∧ (setSpeedMultiplier s m).entities
            = s.entities.map (fun p => (p.1, p.2.applySpeedMultiplier m))
        ∧ ∀ p ∈ s.entities, p.2.is_active = true →
            (p.2.base_speed = 0 → p.2.velocity.speed = 0) →
            (p.2.applySpeedMultiplier m).velocity.speed = p.2.base_speed * m)
    ∧ (0 < m1 → 0 < m2 →
        setSpeedMultiplier (setSpeedMultiplier s m1) m2
          = setSpeedMultiplier s m2) := by
  refine ⟨?_, ?_, ?_⟩
  · intro h
    simp [setSpeedMultiplier, h]
  · intro h
    have hnot : ¬ m ≤ 0 := not_le.mpr h
    refine ⟨by simp [setSpeedMultiplier, hnot], by simp [setSpeedMultiplier, hnot], ?_⟩
    intro p hp hact hbase
    simp only [SimEntity.applySpeedMultiplier]
    by_cases hb : p.2.base_speed = 0
    · simp [hb, hbase hb]
    · simp [hb]
  · intro h1 h2
    have hn1 : ¬ m1 ≤ 0 := not_le.mpr h1
    have hn2 : ¬ m2 ≤ 0 := not_le.mpr h2
    simp [setSpeedMultiplier, hn1, hn2, applySpeedMultiplier_twice,
          Function.comp]

/-- An entity with a recorded base speed, for the C3 witness. -/
def demoEntity : SimEntity :=
  { entity_id := "W1", edef := { id := "w" },
    velocity := { speed := 6 }, base_speed := 3 }

/-- A one-entity simulator state for the C3 witness. -/
def demoState : SimState := { entities := [("W1", demoEntity)] }

/-- Claim C3 witness: multiplier 2 then 5 equals 5 directly on a concrete
state, rejection at 0 leaves the state unchanged, and the concrete entity
speed rescales from its base speed. -/
theorem speed_multiplier_semantics_witness :
    setSpeedMultiplier demoState 0 = demoState
    ∧ (setSpeedMultiplier demoState 2).speed_multiplier = 2
    ∧ setSpeedMultiplier (setSpeedMultiplier demoState 2) 5
        = setSpeedMultiplier demoState 5
    ∧ (demoEntity.applySpeedMultiplier 2).velocity.speed
        = demoEntity.base_speed * 2 := by
  have h := speed_multiplier_semantics demoState 2 2 5
  have h0 := speed_multiplier_semantics demoState 0 2 5
  refine ⟨h0.1 le_rfl, (h.2.1 (by norm_num)).1, h.2.2 (by norm_num) (by norm_num), ?_⟩
  refine (h.2.1 (by norm_num)).2.2 ("W1", demoEntity) ?_ rfl ?_
  · simp [demoState]
  · intro hz
    exact absurd hz (by norm_num [demoEntity])

theorem updateEntityMovement_near (O : TrigOracle) (dt : ℚ) (e : SimEntity)
    (tgt : Position3D) (ht : e.target_position = some tgt)
    (hnear : O.sqrt (e.position.distSq tgt) < 50) :
    updateEntityMovement O dt e = advanceToNextWaypoint e := by
  unfold updateEntityMovement
  rw [ht]
  simp only
  rw [if_pos hnear]

theorem updateEntityMovement_far_heading (O : TrigOracle) (dt : ℚ)
    (e : SimEntity) (tgt : Position3D) (ht : e.target_position = some tgt)
    (hfar : ¬ O.sqrt (e.position.distSq tgt) < 50) :
    (updateEntityMovement O dt e).velocity.heading = newHeading O dt e tgt := by
  unfold updateEntityMovement
  rw [ht]
  simp only
  rw [if_neg hfar]

theorem updateEntityMovement_far_x (O : TrigOracle) (dt : ℚ)
    (e : SimEntity) (tgt : Position3D) (ht : e.target_position = some tgt)
    (hfar : ¬ O.sqrt (e.position.distSq tgt) < 50) :
    (updateEntityMovement O dt e).position.x
      = e.position.x + e.velocity.speed * O.sinDeg (newHeading O dt e tgt) * dt := by
  unfold updateEntityMovement
  rw [ht]
  simp only
  rw [if_neg hfar]

theorem updateEntityMovement_far_z (O : TrigOracle) (dt : ℚ)
    (e : SimEntity) (tgt : Position3D) (ht : e.target_position = some tgt)
    (hfar : ¬ O.sqrt (e.position.distSq tgt) < 50) :
    (updateEntityMovement O dt e).position.z
      = e.position.z + e.velocity.speed * O.cosDeg (newHeading O dt e tgt) * dt := by
  unfold updateEntityMovement
  rw [ht]
  simp only
  rw [if_neg hfar]

/-- Claim C2: for an entity with a target waypoint, one movement step changes
the heading by at most turnRate times dt measured as the shortest angular
distance across the plus-minus 180 wrap, and the resulting heading is
normalized into [0, 360) (arrival steps keep the already-normalized
heading). -/
theorem heading_update_bound (O : TrigOracle) (dt : ℚ) (e : SimEntity)
    (tgt : Position3D) (ht : e.target_position = some tgt)
    (hM : 0 ≤ e.edef.turnRate * dt)
    (hh0 : 0 ≤ e.velocity.heading) (hh1 : e.velocity.heading < 360) :
    angDist (updateEntityMovement O dt e).velocity.heading e.velocity.heading
        ≤ e.edef.turnRate * dt
    ∧ 0 ≤ (updateEntityMovement O dt e).velocity.heading
    ∧ (updateEntityMovement O dt e).velocity.heading < 360 := by
  by_cases hnear : O.sqrt (e.position.distSq tgt) < 50
  · rw [updateEntityMovement_near O dt e tgt ht hnear,
        advanceToNextWaypoint_velocity]
    refine ⟨?_, hh0, hh1⟩
    have harg : e.velocity.heading - e.velocity.heading + 180 = (180:ℚ) := by ring
    have hz : angDist e.velocity.heading e.velocity.heading = 0 := by
      rw [angDist, angDelta, harg, fmod360_eq_self (by norm_num) (by norm_num)]
      norm_num
    rw [hz]
    exact hM
  · rw [updateEntityMovement_far_heading O dt e tgt ht hnear]
    refine ⟨?_, ?_, ?_⟩
    · have h1 : angDist (newHeading O dt e tgt) e.velocity.heading
          ≤ |clampedHeadingDelta O dt e tgt| := by
        unfold newHeading
        exact angDist_fmod_add e.velocity.heading (clampedHeadingDelta O dt e tgt)
      exact h1.trans (clampedHeadingDelta_abs_le O dt e tgt hM)
    · unfold newHeading
      exact fmod360_nonneg _
    · unfold newHeading
      exact fmod360_lt _

/-- A concrete oracle for witnesses and counterexamples: the values it
returns at the inputs the concrete scenarios reach agree with the real math
functions there. -/
def demoOracle : TrigOracle :=
  { sqrt := fun q => if q = 10900 then 104 else if q = 1000000 then 1000 else 0,
    sinDeg := fun _ => 0,
    cosDeg := fun _ => 1,
    atan2Deg := fun _ _ => 0,
    sinRad := fun _ => 0,
    cosRad := fun _ => 1,
    piQ := 355/113 }

/-- A ground entity heading 0 with a target waypoint due north, for the C2
witness. -/
def headingDemoEntity : SimEntity :=
  { entity_id := "H1", edef := { id := "h", turnRate := 30 },
    position := {},
    velocity := { speed := 5, heading := 0 },
    target_position := some { x := 0, y := 0, z := 1000 },
    waypoints := [{ position := { x := 0, y := 0, z := 1000 } }] }

/-- Claim C2 witness: the heading bound and normalization at a concrete
entity, oracle and tick. -/
theorem heading_update_bound_witness :
    angDist (updateEntityMovement demoOracle 1 headingDemoEntity).velocity.heading
        headingDemoEntity.velocity.heading
      ≤ headingDemoEntity.edef.turnRate * 1
    ∧ 0 ≤ (updateEntityMovement demoOracle 1 headingDemoEntity).velocity.heading
    ∧ (updateEntityMovement demoOracle 1 headingDemoEntity).velocity.heading < 360 :=
  heading_update_bound demoOracle 1 headingDemoEntity
    { x := 0, y := 0, z := 1000 } rfl (by norm_num [headingDemoEntity])
    (by norm_num [headingDemoEntity]) (by norm_num [headingDemoEntity])


theorem updateEntities_entities (O : TrigOracle) (dt : ℚ) (s : SimState) :
    (updateEntities O dt s).entities
      = s.entities.map (fun p => (p.1, updateEntity O s.terrain_bounds dt p.2)) := rfl

theorem cleanupEntities_entities (s : SimState) :
    (cleanupEntities s).entities
      = s.entities.filter (fun p => p.2.is_active) := rfl

theorem updateEntities_terrain (O : TrigOracle) (dt : ℚ) (s : SimState) :
    (updateEntities O dt s).terrain_bounds = s.terrain_bounds := rfl

theorem updateEntity_active_within (O : TrigOracle) (b : TerrainBounds)
    (dt : ℚ) (e : SimEntity)
    (h : (updateEntity O b dt e).is_active = true) :
    b.isWithinBounds (updateEntity O b dt e).position
      (decide ((updateEntity O b dt e).edef.category = "AIR")) = true := by
  by_cases ha : e.is_active = true
  · by_cases hc : b.isWithinBounds (updateEntityMovement O dt e).position
        (decide ((updateEntityMovement O dt e).edef.category = "AIR")) = true
    · have heq : updateEntity O b dt e = updateEntityMovement O dt e := by
        simp [updateEntity, ha, hc]
      rw [heq]
      exact hc
    · have hcf : b.isWithinBounds (updateEntityMovement O dt e).position
          (decide ((updateEntityMovement O dt e).edef.category = "AIR")) = false :=
        Bool.not_eq_true _ ▸ Bool.of_not_eq_true hc
      have heq : updateEntity O b dt e
          = { updateEntityMovement O dt e with is_active := false } := by
        simp [updateEntity, ha, hcf]
      rw [heq] at h
      simp at h
  · have hf : e.is_active = false := Bool.of_not_eq_true ha
    have heq : updateEntity O b dt e = e := by
      simp [updateEntity, hf]
    rw [heq] at h
    exact absurd h ha

theorem updateEntity_not_active_of_oob (O : TrigOracle) (b : TerrainBounds)
    (dt : ℚ) (e : SimEntity)
    (hoob : b.isWithinBounds (updateEntityMovement O dt e).position
        (decide ((updateEntityMovement O dt e).edef.category = "AIR")) = false) :
    (updateEntity O b dt e).is_active = false := by
  by_cases ha : e.is_active = true
  · have heq : updateEntity O b dt e
        = { updateEntityMovement O dt e with is_active := false } := by
      simp [updateEntity, ha, hoob]
    rw [heq]
  · have hf : e.is_active = false := Bool.of_not_eq_true ha
    have heq : updateEntity O b dt e = e := by
      simp [updateEntity, hf]
    rw [heq]
    exact hf

theorem lookup_none_of_forall {β : Type} (l : List (String × β)) (k : String)
    (h : ∀ q ∈ l, ¬ q.1 = k) : l.lookup k = none := by
  induction l with
  | nil => rfl
  | cons a t ih =>
    have ha := h a (List.mem_cons_self a t)
    have hbeq : (k == a.1) = false := by
      simp only [beq_eq_false_iff_ne, ne_eq]
      exact fun hh => ha hh.symm
    cases a with
    | mk a1 a2 =>
      simp only [List.lookup, hbeq]
      exact ih (fun q hq => h q (List.mem_cons_of_mem _ hq))

theorem eq_of_nodup_keys {β : Type} {l : List (String × β)}
    (h : (l.map Prod.fst).Nodup) {a b : String × β}
    (ha : a ∈ l) (hb : b ∈ l) (hk : a.1 = b.1) : a = b := by
  induction l with
  | nil => cases ha
  | cons x t ih =>
    rw [List.map_cons, List.nodup_cons] at h
    rcases List.mem_cons.mp ha with rfl | ha2
    · rcases List.mem_cons.mp hb with rfl | hb2
      · rfl
      · exact absurd (hk ▸ List.mem_map_of_mem Prod.fst hb2) h.1
    · rcases List.mem_cons.mp hb with rfl | hb2
      · exact absurd (hk ▸ List.mem_map_of_mem Prod.fst ha2) h.1
      · exact ih h.2 ha2 hb2

/-- Shared removal fact: if every live-map entry under a key has an
out-of-bounds post-movement position, then after update and cleanup the key
is no longer in the live map. -/
theorem tick_removes_key_of_oob (O : TrigOracle) (dt : ℚ) (s : SimState)
    (k : String)
    (hall : ∀ q ∈ s.entities, q.1 = k →
      s.terrain_bounds.isWithinBounds (updateEntityMovement O dt q.2).position
        (decide ((updateEntityMovement O dt q.2).edef.category = "AIR")) = false) :
    ((cleanupEntities (updateEntities O dt s)).entities).lookup k = none := by
  apply lookup_none_of_forall
  intro q hq
  rw [cleanupEntities_entities, updateEntities_entities] at hq
  obtain ⟨hmem, hact⟩ := List.mem_filter.mp hq
  obtain ⟨p0, hp0, rfl⟩ := List.mem_map.mp hmem
  intro hk
  have hoob := hall p0 hp0 hk
  have hdead := updateEntity_not_active_of_oob O s.terrain_bounds dt p0.2 hoob
  simp only [hdead] at hact
  exact absurd hact (by simp)

/-- Claim C1: after the retirement phase of a tick, every entity remaining in
the live set is active and within the current terrain bounds (with the
altitude checked exactly when its definition category is AIR); and every
entity whose post-integration position is out of bounds is gone from the
live set (its key looks up to nothing). -/
theorem bounds_invariant_under_tick (O : TrigOracle) (dt : ℚ) (s : SimState) :
    ((cleanupEntities (updateEntities O dt s)).entities.all
        (fun p => p.2.is_active
          && s.terrain_bounds.isWithinBounds p.2.position
               (decide (p.2.edef.category = "AIR")))) = true
    ∧ ((s.entities.map Prod.fst).Nodup →
        ∀ p ∈ s.entities,
          s.terrain_bounds.isWithinBounds (updateEntityMovement O dt p.2).position
              (decide ((updateEntityMovement O dt p.2).edef.category = "AIR")) = false →
          ((cleanupEntities (updateEntities O dt s)).entities).lookup p.1 = none) := by
  constructor
  · rw [List.all_eq_true]
    intro q hq
    rw [cleanupEntities_entities, updateEntities_entities] at hq
    obtain ⟨hmem, hact⟩ := List.mem_filter.mp hq
    obtain ⟨p0, hp0, rfl⟩ := List.mem_map.mp hmem
    rw [Bool.and_eq_true]
    refine ⟨hact, ?_⟩
    exact updateEntity_active_within O s.terrain_bounds dt p0.2 hact
  · intro hnodup p hp hoob
    apply tick_removes_key_of_oob
    intro q hq hk
    have : q = p := eq_of_nodup_keys hnodup hq hp hk
    rw [this]
    exact hoob

/-- An in-bounds entity for the C1 witness. -/
def inEntity : SimEntity := { entity_id := "IN", edef := { id := "i" } }

/-- An out-of-bounds entity (x = 6000 with bounds max 5000) for the C1
witness. -/
def outEntity : SimEntity :=
  { entity_id := "OUT", edef := { id := "o" },
    position := { x := 6000, y := 0, z := 0 } }

/-- A two-entity state for the C1 witness. -/
def tickDemoState : SimState :=
  { entities := [("IN", inEntity), ("OUT", outEntity)] }

/-- Claim C1 witness: on a concrete state with one in-bounds and one
out-of-bounds entity, the invariant holds and the out-of-bounds key is
removed by the tick. -/
theorem bounds_invariant_witness :
    ((cleanupEntities (updateEntities demoOracle 1 tickDemoState)).entities.all
        (fun p => p.2.is_active
          && tickDemoState.terrain_bounds.isWithinBounds p.2.position
               (decide (p.2.edef.category = "AIR")))) = true
    ∧ ((cleanupEntities (updateEntities demoOracle 1 tickDemoState)).entities).lookup "OUT" = none := by
  refine ⟨(bounds_invariant_under_tick demoOracle 1 tickDemoState).1, ?_⟩
  refine (bounds_invariant_under_tick demoOracle 1 tickDemoState).2 ?_
    ("OUT", outEntity) ?_ ?_
  · simp [tickDemoState]
  · simp [tickDemoState]
  · norm_num [tickDemoState, outEntity, updateEntityMovement,
      TerrainBounds.isWithinBounds]

theorem initializeEntityMovement_entity_id (O : TrigOracle) (b : TerrainBounds)
    (r : EntityRand) (e : SimEntity) :
    (initializeEntityMovement O b r e).entity_id = e.entity_id := by
  unfold initializeEntityMovement
  cases e.patrol_behavior <;>
    simp [generateRandomWaypoints, generateOrbitalPattern, generateTransportRoute]

theorem initializeEntityMovement_position (O : TrigOracle) (b : TerrainBounds)
    (r : EntityRand) (e : SimEntity) :
    (initializeEntityMovement O b r e).position = e.position := by
  unfold initializeEntityMovement
  cases e.patrol_behavior <;>
    simp [generateRandomWaypoints, generateOrbitalPattern, generateTransportRoute]

theorem initializeEntityMovement_edef (O : TrigOracle) (b : TerrainBounds)
    (r : EntityRand) (e : SimEntity) :
    (initializeEntityMovement O b r e).edef = e.edef := by
  unfold initializeEntityMovement
  cases e.patrol_behavior <;>
    simp [generateRandomWaypoints, generateOrbitalPattern, generateTransportRoute]

theorem initializeEntityMovement_is_active (O : TrigOracle) (b : TerrainBounds)
    (r : EntityRand) (e : SimEntity) :
    (initializeEntityMovement O b r e).is_active = e.is_active := by
  unfold initializeEntityMovement
  cases e.patrol_behavior <;>
    simp [generateRandomWaypoints, generateOrbitalPattern, generateTransportRoute]

theorem finalizeEntity_entity_id (O : TrigOracle) (r : EntityRand)
    (s : SimState) (e : SimEntity) :
    (finalizeEntity O r s e).entity_id = e.entity_id := by
  simp [finalizeEntity, initializeEntityMovement_entity_id]

theorem finalizeEntity_position (O : TrigOracle) (r : EntityRand)
    (s : SimState) (e : SimEntity) :
    (finalizeEntity O r s e).position = e.position := by
  simp [finalizeEntity, initializeEntityMovement_position]

theorem finalizeEntity_edef (O : TrigOracle) (r : EntityRand)
    (s : SimState) (e : SimEntity) :
    (finalizeEntity O r s e).edef = e.edef := by
  simp [finalizeEntity, initializeEntityMovement_edef]

theorem finalizeEntity_is_active (O : TrigOracle) (r : EntityRand)
    (s : SimState) (e : SimEntity) :
    (finalizeEntity O r s e).is_active = e.is_active := by
  simp [finalizeEntity, initializeEntityMovement_is_active]

theorem lookup_append_single (l : List (String × SimEntity)) (k : String)
    (v : SimEntity) (h : ∀ q ∈ l, ¬ q.1 = k) :
    (l ++ [(k, v)]).lookup k = some v := by
  induction l with
  | nil => simp [List.lookup]
  | cons a t ih =>
    cases a with
    | mk a1 a2 =>
      have hk : ¬ a1 = k := by
        have := h (a1, a2) (List.mem_cons_self _ _)
        simpa using this
      have hbeq : (k == a1) = false :=
        beq_eq_false_iff_ne.mpr (Ne.symm hk)
      simp only [List.cons_append, List.lookup, hbeq]
      exact ih (fun q hq => h q (List.mem_cons_of_mem _ hq))

theorem lookup_map_replace (l : List (String × SimEntity)) (k : String)
    (v : SimEntity) (h : l.any (fun p => p.1 = k) = true) :
    (l.map (fun p => if p.1 = k then (k, v) else p)).lookup k = some v := by
  induction l with
  | nil => simp at h
  | cons a t ih =>
    cases a with
    | mk a1 a2 =>
      by_cases hk : a1 = k
      · subst hk
        have hc : ((a1, a2).1 = a1) := rfl
        rw [List.map_cons, if_pos hc]
        simp [List.lookup]
      · have hbeq : (k == a1) = false :=
          beq_eq_false_iff_ne.mpr (Ne.symm hk)
        have ht : t.any (fun p => p.1 = k) = true := by
          rcases List.any_eq_true.mp h with ⟨x, hx, hxk⟩
          rcases List.mem_cons.mp hx with rfl | hx2
          · exact absurd (of_decide_eq_true hxk) hk
          · exact List.any_eq_true.mpr ⟨x, hx2, hxk⟩
        have hc : ¬ ((a1, a2).1 = k) := hk
        rw [List.map_cons, if_neg hc]
        simp only [List.lookup, hbeq]
        exact ih ht

theorem dictInsert_lookup (l : List (String × SimEntity)) (k : String)
    (v : SimEntity) : (dictInsert l k v).lookup k = some v := by
  unfold dictInsert
  by_cases h : l.any (fun p => p.1 = k) = true
  · rw [if_pos h]
    exact lookup_map_replace l k v h
  · rw [if_neg h]
    have hall := List.any_eq_false.mp (Bool.of_not_eq_true h)
    apply lookup_append_single
    intro q hq
    have := hall q hq
    simpa using this

theorem dictInsert_key_value (l : List (String × SimEntity)) (k : String)
    (v : SimEntity) :
    ∀ q ∈ dictInsert l k v, q.1 = k → q.2 = v := by
  intro q hq hk
  unfold dictInsert at hq
  by_cases h : l.any (fun p => p.1 = k) = true
  · rw [if_pos h] at hq
    obtain ⟨p0, hp0, hq0⟩ := List.mem_map.mp hq
    by_cases hpk : p0.1 = k
    · rw [if_pos hpk] at hq0
      rw [← hq0]
    · rw [if_neg hpk] at hq0
      rw [← hq0] at hk
      exact absurd hk hpk
  · rw [if_neg h] at hq
    have hall := List.any_eq_false.mp (Bool.of_not_eq_true h)
    rcases List.mem_append.mp hq with hq1 | hq2
    · have := hall q hq1
      simp only [decide_eq_true_eq] at this
      exact absurd hk this
    · rw [List.mem_singleton.mp hq2]

theorem spawnFinalize_entities (O : TrigOracle) (r : EntityRand) (s : SimState)
    (e : SimEntity) :
    (spawnFinalize O r s e).entities
      = dictInsert s.entities (finalizeEntity O r s e).entity_id
          (finalizeEntity O r s e) := rfl

theorem spawnFinalize_terrain (O : TrigOracle) (r : EntityRand) (s : SimState)
    (e : SimEntity) :
    (spawnFinalize O r s e).terrain_bounds = s.terrain_bounds := rfl

/-- Claim C10: spawn_entity_at_position adds the entity to the live set and
reports success even when the population is at the max-entities cap, the
definition is at its max-concurrent count, and the position is outside the
current TerrainBounds; no condition is checked on the manual-spawn path.
Such an out-of-bounds entity is retired only by a later tick, through the
ordinary post-movement bounds check. -/
theorem manual_spawn_bypasses_checks (O O2 : TrigOracle) (r : EntityRand)
    (s : SimState) (eid : String) (d : EntityDef) (pos : ℚ × ℚ × ℚ)
    (dispo : String) (dt : ℚ)
    (hpop : s.entities.length ≥ s.max_entities)
    (hcap : countByDef s d.id ≥ d.max_concurrent)
    (hoob : s.terrain_bounds.isWithinBounds
        { x := pos.1, y := pos.2.1, z := pos.2.2 }
        (decide (d.category = "AIR")) = false) :
    (spawnEntityAtPosition O r s eid d pos dispo).2 = true
    ∧ (∃ e, (spawnEntityAtPosition O r s eid d pos dispo).1.entities.lookup eid
          = some e
        ∧ e.position = { x := pos.1, y := pos.2.1, z := pos.2.2 }
        ∧ e.edef = d ∧ e.is_active = true)
    ∧ (∀ e, (spawnEntityAtPosition O r s eid d pos dispo).1.entities.lookup eid
          = some e →
        s.terrain_bounds.isWithinBounds (updateEntityMovement O2 dt e).position
            (decide ((updateEntityMovement O2 dt e).edef.category = "AIR")) = false →
        ((cleanupEntities (updateEntities O2 dt
            (spawnEntityAtPosition O r s eid d pos dispo).1)).entities).lookup eid
          = none) := by
  have hpair : spawnEntityAtPosition O r s eid d pos dispo
      = (spawnFinalize O r s
          { mkSimEntity d eid r with
              position := { x := pos.1, y := pos.2.1, z := pos.2.2 },
              disposition := dispo }, true) := rfl
  have hid : (finalizeEntity O r s
      { mkSimEntity d eid r with
          position := { x := pos.1, y := pos.2.1, z := pos.2.2 },
          disposition := dispo }).entity_id = eid := by
    rw [finalizeEntity_entity_id]
    rfl
  have hents : (spawnEntityAtPosition O r s eid d pos dispo).1.entities
      = dictInsert s.entities eid (finalizeEntity O r s
          { mkSimEntity d eid r with
              position := { x := pos.1, y := pos.2.1, z := pos.2.2 },
              disposition := dispo }) := by
    rw [hpair, spawnFinalize_entities, hid]
  refine ⟨by rw [hpair], ?_, ?_⟩
  · refine ⟨_, by rw [hents]; exact dictInsert_lookup _ _ _, ?_, ?_, ?_⟩
    · rw [finalizeEntity_position]
    · rw [finalizeEntity_edef]
      rfl
    · rw [finalizeEntity_is_active]
      rfl
  · intro e he hoob2
    have hsome : (spawnEntityAtPosition O r s eid d pos dispo).1.entities.lookup eid
        = some (finalizeEntity O r s
          { mkSimEntity d eid r with
              position := { x := pos.1, y := pos.2.1, z := pos.2.2 },
              disposition := dispo }) := by
      rw [hents]; exact dictInsert_lookup _ _ _
    have heE : e = finalizeEntity O r s
        { mkSimEntity d eid r with
            position := { x := pos.1, y := pos.2.1, z := pos.2.2 },
            disposition := dispo } :=
      Option.some.inj (he.symm.trans hsome)
    apply tick_removes_key_of_oob
    intro q hq hk
    have hq2 : q ∈ dictInsert s.entities eid (finalizeEntity O r s
        { mkSimEntity d eid r with
            position := { x := pos.1, y := pos.2.1, z := pos.2.2 },
            disposition := dispo }) := hents ▸ hq
    have hv := dictInsert_key_value s.entities eid _ q hq2 hk
    rw [hv, ← heE]
    exact hoob2

/-- Concrete random draws for witnesses. -/
def demoRand : EntityRand :=
  { posDraw := (0, 0, 0), heading0 := 0, dispIdx := 0, callsign := "A",
    wpDraws := fun _ => (0, 0, 0), wpHolds := fun _ => 10, orbitRadius := 500 }

/-- A definition capped at one concurrent instance. -/
def capDef : EntityDef := { id := "w0", max_concurrent := 1, cruiseSpeed := 0 }

/-- The one live instance of capDef. -/
def capEntity : SimEntity := { entity_id := "E1", edef := capDef }

/-- A state at its population cap whose only definition is at its
max-concurrent cap. -/
def capState : SimState :=
  { entities := [("E1", capEntity)],
    entity_definitions := [("w0", capDef)],
    max_entities := 1 }

/-- Claim C10 witness: the theorem applied at a concrete saturated state and
an out-of-bounds position. -/
theorem manual_spawn_bypasses_checks_witness :
    (spawnEntityAtPosition demoOracle demoRand capState "E2" capDef
        (9000, 0, 0) "HOSTILE").2 = true
    ∧ (∃ e, (spawnEntityAtPosition demoOracle demoRand capState "E2" capDef
          (9000, 0, 0) "HOSTILE").1.entities.lookup "E2" = some e
        ∧ e.position = { x := (9000 : ℚ × ℚ × ℚ).1, y := ((9000 : ℚ), (0 : ℚ), (0 : ℚ)).2.1, z := ((9000 : ℚ), (0 : ℚ), (0 : ℚ)).2.2 }
        ∧ e.edef = capDef ∧ e.is_active = true)
    ∧ (∀ e, (spawnEntityAtPosition demoOracle demoRand capState "E2" capDef
          (9000, 0, 0) "HOSTILE").1.entities.lookup "E2" = some e →
        capState.terrain_bounds.isWithinBounds
            (updateEntityMovement demoOracle 1 e).position
            (decide ((updateEntityMovement demoOracle 1 e).edef.category = "AIR")) = false →
        ((cleanupEntities (updateEntities demoOracle 1
            (spawnEntityAtPosition demoOracle demoRand capState "E2" capDef
              (9000, 0, 0) "HOSTILE").1)).entities).lookup "E2" = none) :=
  manual_spawn_bypasses_checks demoOracle demoOracle demoRand capState "E2"
    capDef (9000, 0, 0) "HOSTILE" 1
    (by decide)
    (by decide)
    (by simp [TerrainBounds.isWithinBounds, capState, capDef]; norm_num)

theorem advanceToNextWaypoint_spec (e : SimEntity) (h : e.waypoints ≠ []) :
    (advanceToNextWaypoint e).current_waypoint_index
      = (e.current_waypoint_index + 1) % e.waypoints.length
    ∧ (advanceToNextWaypoint e).target_position
      = some ((e.waypoints.getD
          ((e.current_waypoint_index + 1) % e.waypoints.length)
          default).position) := by
  cases hw : e.waypoints with
  | nil => exact absurd hw h
  | cons w ws => constructor <;> simp [advanceToNextWaypoint, hw]

/-- An entity within the arrival radius of its target (3D distance 10), for
the C6 witness. -/
def nearDemoEntity : SimEntity :=
  { entity_id := "N1", edef := { id := "n" },
    position := {},
    velocity := { speed := 5, heading := 0 },
    target_position := some { x := 0, y := 0, z := 10 },
    waypoints := [{ position := { x := 0, y := 0, z := 10 } },
                  { position := { x := 100, y := 0, z := 100 } }] }

/-- An AIR entity whose planar distance to its target is 30 (inside the
50-unit radius) but whose 3D distance is the square root of 10900 (about
104.4, outside it): the altitude gap dominates. -/
def planarDemoEntity : SimEntity :=
  { entity_id := "P1", edef := { id := "p", category := "AIR" },
    position := { x := 0, y := 100, z := 0 },
    velocity := { speed := 10, heading := 0 },
    target_position := some { x := 0, y := 0, z := 30 },
    waypoints := [{ position := { x := 0, y := 0, z := 30 } },
                  { position := {} }] }

/-- A zero-speed ground entity far from its target, for the second half of
the C6 counterexample. -/
def stillDemoEntity : SimEntity :=
  { entity_id := "S1", edef := { id := "q" },
    position := {},
    velocity := { speed := 0, heading := 0 },
    target_position := some { x := 0, y := 0, z := 1000 },
    waypoints := [{ position := { x := 0, y := 0, z := 1000 } }] }

/-- Claim C6 counterexample: the arrival test uses the 3D distance, not the
planar distance.  planarDemoEntity is within 30 planar units of its target
(under the 50-unit radius, so the claim says it must advance its waypoint
and not move), yet because its 3D distance is the square root of 10900
(between 104 and 105, so at least 50) the integrator does not advance the
index and does move the entity.  Moreover a zero-speed entity beyond the
radius keeps its exact position, refuting the claim's assertion that the
position changes in every non-arrival tick. -/
theorem waypoint_arrival_counterexample :
    planarDemoEntity.position.distSq2d { x := 0, y := 0, z := 30 } < 50 ^ 2
    ∧ (50 : ℚ) ^ 2 ≤ planarDemoEntity.position.distSq { x := 0, y := 0, z := 30 }
    ∧ demoOracle.sqrt (planarDemoEntity.position.distSq { x := 0, y := 0, z := 30 }) = 104
    ∧ (104 : ℚ) ^ 2 ≤ planarDemoEntity.position.distSq { x := 0, y := 0, z := 30 }
    ∧ planarDemoEntity.position.distSq { x := 0, y := 0, z := 30 } < (105 : ℚ) ^ 2
    ∧ (updateEntityMovement demoOracle 1 planarDemoEntity).current_waypoint_index
        = planarDemoEntity.current_waypoint_index
    ∧ (updateEntityMovement demoOracle 1 planarDemoEntity).position.z
        ≠ planarDemoEntity.position.z
    ∧ demoOracle.sqrt (stillDemoEntity.position.distSq { x := 0, y := 0, z := 1000 }) = 1000
    ∧ (updateEntityMovement demoOracle 1 stillDemoEntity).position
        = stillDemoEntity.position := by
  refine ⟨?_, ?_, ?_, ?_, ?_, ?_, ?_, ?_, ?_⟩ <;>
    norm_num [Position3D.distSq2d, Position3D.distSq, planarDemoEntity,
      stillDemoEntity, demoOracle, updateEntityMovement, newHeading,
      clampedHeadingDelta, desiredHeading, fmod360, advanceToNextWaypoint]

/-- Claim C6 (amended): arrival is tested against the full 3D distance to
the target (Position3D.distance_to), not the planar distance: when that
distance is under the 50-unit radius the integrator advances the waypoint
index cyclically (wrapping after the last waypoint), sets the new target,
and does not move the entity this tick; otherwise it runs the movement step,
and the position changes provided speed times dt is nonzero and the trig
oracle is consistent at the new heading. -/
theorem waypoint_arrival_3d (O : TrigOracle) (dt : ℚ) (e : SimEntity)
    (tgt : Position3D) (ht : e.target_position = some tgt) :
    (O.sqrt (e.position.distSq tgt) < 50 →
        updateEntityMovement O dt e = advanceToNextWaypoint e
        ∧ (updateEntityMovement O dt e).position = e.position
        ∧ (e.waypoints ≠ [] →
            (updateEntityMovement O dt e).current_waypoint_index
              = (e.current_waypoint_index + 1) % e.waypoints.length
            ∧ (updateEntityMovement O dt e).target_position
              = some ((e.waypoints.getD
                  ((e.current_waypoint_index + 1) % e.waypoints.length)
                  default).position)))
    ∧ (¬ O.sqrt (e.position.distSq tgt) < 50 →
        e.velocity.speed * dt ≠ 0 →
        (O.sinDeg (newHeading O dt e tgt)) ^ 2
            + (O.cosDeg (newHeading O dt e tgt)) ^ 2 = 1 →
        (updateEntityMovement O dt e).position ≠ e.position) := by
  constructor
  · intro hnear
    have heq := updateEntityMovement_near O dt e tgt ht hnear
    refine ⟨heq, by rw [heq]; exact advanceToNextWaypoint_position e, ?_⟩
    intro hwps
    rw [heq]
    exact advanceToNextWaypoint_spec e hwps
  · intro hfar hsd htrig heqpos
    have hx := congrArg Position3D.x heqpos
    have hz := congrArg Position3D.z heqpos
    rw [updateEntityMovement_far_x O dt e tgt ht hfar] at hx
    rw [updateEntityMovement_far_z O dt e tgt ht hfar] at hz
    have hx0 : O.sinDeg (newHeading O dt e tgt) * (e.velocity.speed * dt) = 0 := by
      linarith [hx, (by ring :
        e.velocity.speed * O.sinDeg (newHeading O dt e tgt) * dt
          = O.sinDeg (newHeading O dt e tgt) * (e.velocity.speed * dt))]
    have hz0 : O.cosDeg (newHeading O dt e tgt) * (e.velocity.speed * dt) = 0 := by
      linarith [hz, (by ring :
        e.velocity.speed * O.cosDeg (newHeading O dt e tgt) * dt
          = O.cosDeg (newHeading O dt e tgt) * (e.velocity.speed * dt))]
    have hsin : O.sinDeg (newHeading O dt e tgt) = 0 :=
      (mul_eq_zero.mp hx0).resolve_right hsd
    have hcos : O.cosDeg (newHeading O dt e tgt) = 0 :=
      (mul_eq_zero.mp hz0).resolve_right hsd
    rw [hsin, hcos] at htrig
    norm_num at htrig

/-- Claim C6 witness: the amended theorem applied on the arrival side to a
concrete near entity (index advances from 0 to 1, position unchanged) and on
the movement side to a concrete far entity (position changes). -/
theorem waypoint_arrival_3d_witness :
    (updateEntityMovement demoOracle 1 nearDemoEntity
        = advanceToNextWaypoint nearDemoEntity
      ∧ (updateEntityMovement demoOracle 1 nearDemoEntity).position
          = nearDemoEntity.position
      ∧ (nearDemoEntity.waypoints ≠ [] →
          (updateEntityMovement demoOracle 1 nearDemoEntity).current_waypoint_index
            = (nearDemoEntity.current_waypoint_index + 1) % nearDemoEntity.waypoints.length
          ∧ (updateEntityMovement demoOracle 1 nearDemoEntity).target_position
            = some ((nearDemoEntity.waypoints.getD
                ((nearDemoEntity.current_waypoint_index + 1) % nearDemoEntity.waypoints.length)
                default).position)))
    ∧ (updateEntityMovement demoOracle 1 headingDemoEntity).position
        ≠ headingDemoEntity.position := by
  constructor
  · exact (waypoint_arrival_3d demoOracle 1 nearDemoEntity
      { x := 0, y := 0, z := 10 } rfl).1
      (by norm_num [demoOracle, Position3D.distSq, nearDemoEntity])
  · exact (waypoint_arrival_3d demoOracle 1 headingDemoEntity
      { x := 0, y := 0, z := 1000 } rfl).2
      (by norm_num [demoOracle, Position3D.distSq, headingDemoEntity])
      (by norm_num [headingDemoEntity])
      (by norm_num [demoOracle])

theorem cumBefore_zero (ws : List ℚ) : cumBefore ws 0 = 0 := by
  simp [cumBefore]

theorem cumBefore_cons_succ (w : ℚ) (ws : List ℚ) (i : ℕ) :
    cumBefore (w :: ws) (i + 1) = w + cumBefore ws i := by
  simp [cumBefore]

theorem cumBefore_nonneg (ws : List ℚ) (i : ℕ) (hw : ∀ w ∈ ws, 0 ≤ w) :
    0 ≤ cumBefore ws i :=
  List.sum_nonneg (fun x hx => hw x (List.take_subset i ws hx))

/-- The random.choices selection is probability-proportional: the scaled
variate u selects index i exactly when u lies in the half-open cumulative
interval of i, whose length is the weight of i. -/
theorem weightedIndex_eq_iff (ws : List ℚ) :
    ∀ (u : ℚ) (i : ℕ), (∀ w ∈ ws, 0 ≤ w) → 0 ≤ u → u < ws.sum →
      i < ws.length →
      (weightedIndex ws u = i ↔
        cumBefore ws i ≤ u ∧ u < cumBefore ws i + ws.getD i 0) := by
  induction ws with
  | nil =>
    intro u i hw hu0 hus hi
    simp at hi
  | cons w t ih =>
    intro u i hw hu0 hus hi
    have hw2 : ∀ x ∈ t, 0 ≤ x := fun x hx => hw x (List.mem_cons_of_mem w hx)
    cases i with
    | zero =>
      by_cases hc : u < w
      · rw [weightedIndex, if_pos hc, cumBefore_zero]
        have hgd : (w :: t).getD 0 0 = w := rfl
        rw [hgd]
        constructor
        · intro _
          exact ⟨hu0, by linarith⟩
        · intro _
          rfl
      · rw [weightedIndex, if_neg hc, cumBefore_zero]
        have hgd : (w :: t).getD 0 0 = w := rfl
        rw [hgd]
        constructor
        · intro h0
          exact absurd h0 (by omega)
        · rintro ⟨h1, h2⟩
          exact absurd (by linarith : u < w) hc
    | succ j =>
      have hj : j < t.length := by
        simpa using hi
      by_cases hc : u < w
      · rw [weightedIndex, if_pos hc, cumBefore_cons_succ]
        have hcum : 0 ≤ cumBefore t j := cumBefore_nonneg t j hw2
        constructor
        · intro h0
          exact absurd h0 (by omega)
        · rintro ⟨h1, h2⟩
          exfalso
          linarith
      · rw [weightedIndex, if_neg hc, cumBefore_cons_succ]
        have hu0i : 0 ≤ u - w := by linarith [not_lt.mp hc]
        have husi : u - w < t.sum := by
          rw [List.sum_cons] at hus
          linarith
        have hiff := ih (u - w) j hw2 hu0i husi hj
        have hgd : (w :: t).getD (j + 1) 0 = t.getD j 0 := rfl
        rw [hgd]
        constructor
        · intro h
          have hwi : weightedIndex t (u - w) = j := by omega
          obtain ⟨ha, hb⟩ := hiff.mp hwi
          exact ⟨by linarith, by linarith⟩
        · rintro ⟨ha, hb⟩
          have := hiff.mpr ⟨by linarith, by linarith⟩
          omega

theorem getD_min_mem {α : Type} [Inhabited α] (l : List α) (i : ℕ)
    (h : l ≠ []) : l.getD (min i (l.length - 1)) default ∈ l := by
  have hlen : 0 < l.length := List.length_pos.mpr h
  have hi : min i (l.length - 1) < l.length := by omega
  rw [List.getD_eq_getElem l default hi]
  exact List.getElem_mem hi

theorem selectedDef_mem (s : SimState) (u01 : ℚ) (x : String × EntityDef)
    (h : selectedDef s u01 = some x) : x ∈ availableDefs s := by
  unfold selectedDef at h
  by_cases he : (availableDefs s).isEmpty = true
  · rw [if_pos he] at h
    cases h
  · rw [if_neg he] at h
    have hne : availableDefs s ≠ [] := by
      intro hnil
      rw [hnil] at he
      simp at he
    simp only [Option.some.injEq] at h
    rw [← h]
    exact getD_min_mem (availableDefs s) _ hne

theorem countByDef_eq (s : SimState) (x : String) :
    countByDef s x = (s.entities.filter (fun p => p.2.edef.id = x)).length := rfl

theorem count_append_single (l : List (String × SimEntity))
    (q : String × SimEntity) (x : String) :
    ((l ++ [q]).filter (fun p => p.2.edef.id = x)).length
      = (l.filter (fun p => p.2.edef.id = x)).length
        + (if q.2.edef.id = x then 1 else 0) := by
  rw [List.filter_append]
  by_cases hq : q.2.edef.id = x <;> simp [hq]

theorem dictInsert_of_fresh (l : List (String × SimEntity)) (k : String)
    (v : SimEntity) (h : l.any (fun p => p.1 = k) = false) :
    dictInsert l k v = l ++ [(k, v)] := by
  simp [dictInsert, h]

theorem spawnRandomEntity_of_selected (O : TrigOracle) (r : EntityRand)
    (u01 : ℚ) (suffix : String) (s : SimState) (defId : String) (d : EntityDef)
    (hsel : selectedDef s u01 = some (defId, d)) :
    spawnRandomEntity O r u01 suffix s
      = spawnFinalize O r s
          { mkSimEntity d (autoEntityId defId suffix) r with
              position := s.terrain_bounds.getRandomPosition r.posDraw
                (decide (d.category = "AIR")) } := by
  unfold spawnRandomEntity
  rw [hsel]

theorem spawnRandomEntity_of_none (O : TrigOracle) (r : EntityRand)
    (u01 : ℚ) (suffix : String) (s : SimState)
    (h : selectedDef s u01 = none) :
    spawnRandomEntity O r u01 suffix s = s := by
  unfold spawnRandomEntity
  rw [h]

/-- Claim C4 counterexample: the cap invariant does not hold under every
sequence of operations.  capState holds one live entity of capDef (cap 1);
one manual spawn_entity_at_position call of the same definition raises the
live count to 2, exceeding max-concurrent. -/
theorem spawn_cap_counterexample :
    countByDef (spawnEntityAtPosition demoOracle demoRand capState "E2" capDef
        (0, 0, 0) "HOSTILE").1 "w0" = 2
    ∧ ¬ (countByDef (spawnEntityAtPosition demoOracle demoRand capState "E2"
        capDef (0, 0, 0) "HOSTILE").1 "w0" ≤ capDef.max_concurrent) := by
  exact ⟨by decide, by decide⟩

/-- Claim C4 (amended): the spawn cap invariant holds for the automatic
spawn policy (but not for manual spawn_entity_at_position, which performs no
cap check): under a consistent catalog, one automatic spawn preserves for
every definition that its live count stays at or below max-concurrent; the
weighted selection only ever picks a definition strictly below its cap (so
capped definitions are excluded even with positive weight); nothing spawns
when no definition is eligible or when the population is at the max-entities
cap; and the selection is probability-proportional: the variate picks index
i exactly on the cumulative half-open interval of length equal to the weight
of i (in particular, not uniformly). -/
theorem spawn_cap_and_weighted_selection (O : TrigOracle) (r : EntityRand)
    (u01 : ℚ) (suffix : String) (t : ℚ) (s : SimState) (defId : String)
    (d : EntityDef) (ws : List ℚ) (u : ℚ) (i : ℕ)
    (hcat : ∀ p ∈ s.entity_definitions, p.2.id = p.1)
    (hkeys : (s.entity_definitions.map Prod.fst).Nodup) :
    (selectedDef s u01 = some (defId, d) →
        (defId, d) ∈ s.entity_definitions
        ∧ countByDef s defId < d.max_concurrent)
    ∧ (selectedDef s u01 = some (defId, d) →
        (s.entities.any (fun q => q.1 = autoEntityId defId suffix)) = false →
        (∀ p ∈ s.entity_definitions, countByDef s p.1 ≤ p.2.max_concurrent) →
        ∀ p ∈ s.entity_definitions,
          countByDef (spawnRandomEntity O r u01 suffix s) p.1
            ≤ p.2.max_concurrent)
    ∧ (availableDefs s = [] → spawnRandomEntity O r u01 suffix s = s)
    ∧ (s.entities.length ≥ s.max_entities →
        maybeSpawnEntities O r u01 suffix t s = s)
    ∧ ((∀ w ∈ ws, 0 ≤ w) → 0 ≤ u → u < ws.sum → i < ws.length →
        (weightedIndex ws u = i ↔
          cumBefore ws i ≤ u ∧ u < cumBefore ws i + ws.getD i 0)) := by
  have selSpec : selectedDef s u01 = some (defId, d) →
      (defId, d) ∈ s.entity_definitions
      ∧ countByDef s defId < d.max_concurrent := by
    intro hsel
    have hmem := selectedDef_mem s u01 (defId, d) hsel
    obtain ⟨hdefs, hpred⟩ := List.mem_filter.mp hmem
    exact ⟨hdefs, of_decide_eq_true hpred⟩
  refine ⟨selSpec, ?_, ?_, ?_, ?_⟩
  · intro hsel hfresh hinv p hp
    obtain ⟨hdefs, hcnt⟩ := selSpec hsel
    have hdid : d.id = defId := hcat (defId, d) hdefs
    rw [spawnRandomEntity_of_selected O r u01 suffix s defId d hsel]
    have hEid : (finalizeEntity O r s
        { mkSimEntity d (autoEntityId defId suffix) r with
            position := s.terrain_bounds.getRandomPosition r.posDraw
              (decide (d.category = "AIR")) }).entity_id
        = autoEntityId defId suffix := by
      rw [finalizeEntity_entity_id]
      rfl
    have hEdef : (finalizeEntity O r s
        { mkSimEntity d (autoEntityId defId suffix) r with
            position := s.terrain_bounds.getRandomPosition r.posDraw
              (decide (d.category = "AIR")) }).edef = d := by
      rw [finalizeEntity_edef]
      rfl
    have hcountdef : countByDef (spawnFinalize O r s
        { mkSimEntity d (autoEntityId defId suffix) r with
            position := s.terrain_bounds.getRandomPosition r.posDraw
              (decide (d.category = "AIR")) }) p.1
        = countByDef s p.1
          + (if d.id = p.1 then 1 else 0) := by
      rw [countByDef_eq, spawnFinalize_entities, hEid,
          dictInsert_of_fresh _ _ _ hfresh, count_append_single,
          ← countByDef_eq]
      rw [hEdef]
    rw [hcountdef]
    by_cases hpd : d.id = p.1
    · have hkeyeq : p.1 = defId := by rw [← hpd, hdid]
      have hpe : p = (defId, d) := by
        apply eq_of_nodup_keys hkeys hp hdefs
        rw [hkeyeq]
      rw [if_pos hpd]
      have hp2 : p.2.max_concurrent = d.max_concurrent := by rw [hpe]
      have hp1 : countByDef s p.1 = countByDef s defId := by rw [hkeyeq]
      rw [hp1, hp2]
      omega
    · rw [if_neg hpd]
      have := hinv p hp
      omega
  · intro hempty
    apply spawnRandomEntity_of_none
    simp [selectedDef, hempty]
  · intro hfull
    simp [maybeSpawnEntities, hfull]
  · exact weightedIndex_eq_iff ws u i

/-- A definition at its concurrency cap, for the C4 witness. -/
def selDefA : EntityDef := { id := "a", max_concurrent := 1, spawn_probability := 3 }

/-- An eligible definition below its cap, for the C4 witness. -/
def selDefB : EntityDef := { id := "b", max_concurrent := 2, spawn_probability := 1/2 }

/-- The one live instance of selDefA. -/
def selEntityA : SimEntity := { entity_id := "A1", edef := selDefA }

/-- A state where selDefA is capped and selDefB is eligible. -/
def selState : SimState :=
  { entities := [("A1", selEntityA)],
    entity_definitions := [("a", selDefA), ("b", selDefB)] }

/-- A state whose only definition is at its cap: no definition is
eligible. -/
def cappedOnlyState : SimState :=
  { entities := [("A1", selEntityA)],
    entity_definitions := [("a", selDefA)] }

/-- Claim C4 witness: at concrete states, the weighted choice picks the only
uncapped definition (the capped one is excluded despite its larger weight);
one automatic spawn preserves every cap; a fully-capped catalog spawns
nothing; a full population spawns nothing; and the selection interval for
index 0 of the weight list [1/2] is exactly [0, 1/2). -/
theorem spawn_cap_and_weighted_selection_witness :
    (("b", selDefB) ∈ selState.entity_definitions
      ∧ countByDef selState "b" < selDefB.max_concurrent)
    ∧ (∀ p ∈ selState.entity_definitions,
        countByDef (spawnRandomEntity demoOracle demoRand (1/4) "t1" selState) p.1
          ≤ p.2.max_concurrent)
    ∧ spawnRandomEntity demoOracle demoRand (1/4) "t1" cappedOnlyState
        = cappedOnlyState
    ∧ maybeSpawnEntities demoOracle demoRand (1/4) "t1" 0 capState = capState
    ∧ (weightedIndex [(1:ℚ)/2] (1/8) = 0 ↔
        cumBefore [(1:ℚ)/2] 0 ≤ 1/8
        ∧ (1:ℚ)/8 < cumBefore [(1:ℚ)/2] 0 + ([(1:ℚ)/2]).getD 0 0) := by
  have hsel : selectedDef selState (1/4) = some ("b", selDefB) := by
    norm_num [selectedDef, availableDefs, countByDef, weightedIndex,
      selState, selDefA, selDefB, selEntityA, List.filter_cons, List.filter_nil,
      show ("a":String) ≠ "b" from by decide]
  have h := spawn_cap_and_weighted_selection demoOracle demoRand (1/4) "t1" 0
    selState "b" selDefB [(1:ℚ)/2] (1/8) 0 (by decide) (by decide)
  have hcap := spawn_cap_and_weighted_selection demoOracle demoRand (1/4) "t1" 0
    cappedOnlyState "b" selDefB [(1:ℚ)/2] (1/8) 0 (by decide) (by decide)
  have hfull := spawn_cap_and_weighted_selection demoOracle demoRand (1/4) "t1" 0
    capState "b" selDefB [(1:ℚ)/2] (1/8) 0 (by decide) (by decide)
  refine ⟨h.1 hsel, h.2.1 hsel (by decide) (by decide), hcap.2.2.1 ?_,
    hfull.2.2.2.1 (by decide),
    h.2.2.2.2 (by norm_num) (by norm_num)
      (by norm_num [List.sum_cons, List.sum_nil]) (by norm_num)⟩
  norm_num [availableDefs, countByDef, cappedOnlyState, selDefA, selEntityA,
    List.filter_cons, List.filter_nil]

end GanderB
